import Mathlib

/-!
# The cloudify-cli working-directory context model, verified

A shallow embedding of the core of `cloudify_cli/utils.py` and
`cloudify_cli/cli.py`: the input normalizer, the working-directory settings
store, the configuration resolver, the command-mode selector and the
credential resolver.  Filesystem state and the external YAML parser are
passed explicitly; Python exceptions become `Except`; Python `dict`s become
association lists with in-place-update semantics.
-/

/- ## Python string operations

Kernel-computable models of the `str` operations the code uses:
`strip`, `split(sep)` for a one-character separator. -/

/-- Python whitespace for `str.strip` (space, tab, newline, carriage return,
vertical tab, form feed). -/
def isPySpace (c : Char) : Bool :=
  c == ' ' || c == '\t' || c == '\n' || c == '\r' ||
    c == Char.ofNat 11 || c == Char.ofNat 12

def stripChars (cs : List Char) : List Char :=
  ((cs.dropWhile isPySpace).reverse.dropWhile isPySpace).reverse

/-- Python `s.strip()`. -/
def pyStrip (s : String) : String := ⟨stripChars s.data⟩

/-- Split a character list on a separator character, keeping empty segments,
like Python `str.split(sep)`: `"".split(";") == [""]`,
`";".split(";") == ["", ""]`. -/
def splitChars (sep : Char) : List Char → List (List Char)
  | [] => [[]]
  | c :: rest =>
    match splitChars sep rest with
    | [] => [[c]]
    | seg :: segs => if c = sep then [] :: seg :: segs else (c :: seg) :: segs

/-- Python `s.split(sep)` for a one-character separator. -/
def pySplit (sep : Char) (s : String) : List String :=
  (splitChars sep s.data).map String.mk

/- ## YAML values and Python dict semantics -/

/-- A value produced by `yaml.load`. Mappings are association lists in
insertion order, as Python dicts are. -/
inductive Yaml where
  | null
  | bool (b : Bool)
  | int (n : Int)
  | str (s : String)
  | list (xs : List Yaml)
  | dict (entries : List (String × Yaml))

/-- Python `d[k] = v` / one step of `dict.update`: replace the value of an
existing key in place, else append the new binding. -/
def updateOne {α : Type} : List (String × α) → String → α → List (String × α)
  | [], k, v => [(k, v)]
  | (k1, v1) :: rest, k, v =>
    if k1 = k then (k1, v) :: rest else (k1, v1) :: updateOne rest k v

/-- Python `m.update(entries)`: fold `updateOne` over the new entries. -/
def updateAll {α : Type} (m entries : List (String × α)) : List (String × α) :=
  entries.foldl (fun acc kv => updateOne acc kv.1 kv.2) m

/-- Python `m.get(k)`: the value of the first binding of `k`. -/
def ylookup {α : Type} : List (String × α) → String → Option α
  | [], _ => none
  | (k1, v) :: rest, k => if k1 = k then some v else ylookup rest k

/-- The value of the *last* binding of `k` in a raw entry list. -/
def lookupLast {α : Type} : List (String × α) → String → Option α
  | [], _ => none
  | (k1, v) :: rest, k =>
    match lookupLast rest k with
    | some w => some w
    | none => if k1 = k then some v else none

/-- The first of two options that is set. -/
def orGet {α : Type} : Option α → Option α → Option α
  | some v, _ => some v
  | none, b => b

/- ## Errors -/

/-- `CloudifyCliError`, with the `possible_solutions` attribute some sites
attach to it. -/
structure CliError where
  msg : String
  possible_solutions : List String

/- ## Constants

Modelled from the spec: the `constants` module of this repository is not
among the provided sources.  Spec section 6 fixes the marker directory to a
dot-prefixed hidden folder, the settings file name to `context` and the
configuration file name to `config.yaml`; the default REST port and protocol
are "default defined constants" whose concrete values no claim depends on. -/

def CLOUDIFY_WD_SETTINGS_DIRECTORY_NAME : String := ".cloudify"

def CLOUDIFY_WD_SETTINGS_FILE_NAME : String := "context"

def DEFAULT_REST_PORT : Nat := 80

def DEFAULT_PROTOCOL : String := "http"

def PUBLIC_REST_CERT : String := "server.crt"

def IMPORT_RESOLVER_KEY : String := "import_resolver"

/- ## Paths and the filesystem -/

/-- A filesystem path, as its components in reverse order: the head is the
last component, `[]` is the filesystem root.  `os.path.dirname` is `tail`
(the dirname of the root is the root itself) and `os.path.join p name` is
`name :: p`. -/
abbrev FsPath := List String

def joinPath (p : FsPath) (name : String) : FsPath := name :: p

def pathToString (p : FsPath) : String :=
  "/" ++ String.intercalate "/" p.reverse

/-- The working-directory settings record (`CloudifyWorkingDirectorySettings`
in the source), with the defaults its constructor assigns. -/
structure CloudifyWorkingDirectorySettings where
  management_host : Option String := none
  management_key : Option String := none
  management_user : Option String := none
  management_port : Option Nat := none
  provider_context : Option Yaml := none
  rest_port : Nat := DEFAULT_REST_PORT
  rest_protocol : String := DEFAULT_PROTOCOL

/-- The fragment of filesystem state the settings/configuration code
observes.  `contentAt` is the result of `yaml.load` on the tagged settings
file at a path; `configAt` is the result of `yaml.safe_load` on the
configuration file at a path, as a mapping.  Both are consulted only at
paths whose existence was checked first, mirroring the code. -/
structure FS where
  pathExists : FsPath → Bool
  pathIsFile : FsPath → Bool
  contentAt : FsPath → CloudifyWorkingDirectorySettings
  configAt : FsPath → List (String × Yaml)

/- ## Working-directory settings store (`utils.py`) -/

/-- `get_init_path`: walk up from the current directory looking for the
marker directory; stop with `None` at the filesystem root (where
`os.path.dirname(d) == d`). -/
def get_init_path (fs : FS) : FsPath → Option FsPath
  | [] =>
    if fs.pathExists (joinPath [] CLOUDIFY_WD_SETTINGS_DIRECTORY_NAME) then
      some (joinPath [] CLOUDIFY_WD_SETTINGS_DIRECTORY_NAME)
    else none
  | d :: rest =>
    if fs.pathExists (joinPath (d :: rest) CLOUDIFY_WD_SETTINGS_DIRECTORY_NAME) then
      some (joinPath (d :: rest) CLOUDIFY_WD_SETTINGS_DIRECTORY_NAME)
    else get_init_path fs rest

def is_initialized (fs : FS) (cwd : FsPath) : Bool :=
  (get_init_path fs cwd).isSome

/-- The error raised by `raise_uninitialized`, with its remediation hint
(the source quotes the command as 'cfy init'). -/
def uninitializedError (cwd : FsPath) : CliError :=
  { msg := "Not initialized: Cannot find " ++
      (CLOUDIFY_WD_SETTINGS_DIRECTORY_NAME ++ (" in " ++
        (pathToString cwd ++ ", or in any of its parent directories")))
    possible_solutions := ["Run cfy init in this directory"] }

/-- The distinct error `get_context_path` raises when the marker exists but
the settings file beneath it does not. -/
def missingSettingsFileError (context_path : FsPath) : CliError :=
  { msg := "File " ++ (pathToString context_path ++ " does not exist")
    possible_solutions := [] }

/-- `get_context_path`: resolve the marker, then require the settings file
beneath it to exist. -/
def get_context_path (fs : FS) (cwd : FsPath) : Except CliError FsPath :=
  match get_init_path fs cwd with
  | none => .error (uninitializedError cwd)
  | some init_path =>
    let context_path := joinPath init_path CLOUDIFY_WD_SETTINGS_FILE_NAME
    if fs.pathExists context_path then .ok context_path
    else .error (missingSettingsFileError context_path)

/-- The body of `load_cloudify_working_dir_settings`: resolve the context
path and deserialize the file there. -/
def loadSettingsFile (fs : FS) (cwd : FsPath) :
    Except CliError CloudifyWorkingDirectorySettings :=
  (get_context_path fs cwd).map fs.contentAt

/-- `load_cloudify_working_dir_settings(suppress_error)`: any
`CloudifyCliError` raised while loading is turned into `None` when
suppression is requested. -/
def load_cloudify_working_dir_settings (fs : FS) (cwd : FsPath)
    (suppress_error : Bool) :
    Except CliError (Option CloudifyWorkingDirectorySettings) :=
  match loadSettingsFile fs cwd with
  | .ok s => .ok (some s)
  | .error e => if suppress_error then .ok none else .error e

/-- Writing the settings file at a path: the path now exists, is a file, and
deserializes to the written record. -/
def writeSettings (fs : FS) (p : FsPath)
    (s : CloudifyWorkingDirectorySettings) : FS :=
  { fs with
    pathExists := fun q => q == p || fs.pathExists q
    pathIsFile := fun q => q == p || fs.pathIsFile q
    contentAt := fun q => if q == p then s else fs.contentAt q }

/-- `os.mkdir` of the marker directory when absent. -/
def mkdirIfAbsent (fs : FS) (p : FsPath) : FS :=
  { fs with pathExists := fun q => q == p || fs.pathExists q }

/-- `dump_cloudify_working_dir_settings`: with `update=True` the target file
must already be locatable (via `get_context_path`, which raises otherwise);
with `update=False` the marker directory is created if absent and a fresh
file is written under the current directory. -/
def dump_cloudify_working_dir_settings (fs : FS) (cwd : FsPath)
    (cosmo_wd_settings : CloudifyWorkingDirectorySettings) (update : Bool) :
    Except CliError FS :=
  if update then
    match get_context_path fs cwd with
    | .error e => .error e
    | .ok target_file_path => .ok (writeSettings fs target_file_path cosmo_wd_settings)
  else
    let dir := joinPath cwd CLOUDIFY_WD_SETTINGS_DIRECTORY_NAME
    let fs1 := if fs.pathExists dir then fs else mkdirIfAbsent fs dir
    .ok (writeSettings fs1 (joinPath dir CLOUDIFY_WD_SETTINGS_FILE_NAME)
      cosmo_wd_settings)

/-- `update_wd_settings`, the `@contextmanager` scope: load the settings,
run the scope body on them (an exception in the body is `.error`), and dump
with `update=True` only on normal completion.  The second component is the
filesystem after the whole operation: unchanged unless the final dump ran. -/
def update_wd_settings (ε : Type) (fs : FS) (cwd : FsPath)
    (body : CloudifyWorkingDirectorySettings →
      Except ε CloudifyWorkingDirectorySettings) :
    Except (CliError ⊕ ε) Unit × FS :=
  match loadSettingsFile fs cwd with
  | .error e => (.error (.inl e), fs)
  | .ok cosmo_wd_settings =>
    match body cosmo_wd_settings with
    | .error e => (.error (.inr e), fs)
    | .ok mutated =>
      match dump_cloudify_working_dir_settings fs cwd mutated true with
      | .error e => (.error (.inl e), fs)
      | .ok fs2 => (.ok (), fs2)

/- ## Command registry and mode selector (`cli.py`) -/

def truthyStr : Option String → Bool
  | none => false
  | some s => !(s == "")

/-- Modelled from the spec: `utils.is_manager_active` is called by
`cli.register_commands` but its definition is not among the provided
sources.  Spec section 4.4: it "reports true exactly when
`load(suppress_error=True)` returns a non-null settings record whose
`management_host` is set". -/
def is_manager_active (fs : FS) (cwd : FsPath) : Bool :=
  match load_cloudify_working_dir_settings fs cwd true with
  | .ok (some s) => truthyStr s.management_host
  | _ => false

/-- The commands `register_commands` adds unconditionally. -/
def alwaysCommands : List String :=
  ["use", "recover", "init", "validate", "bootstrap"]

/-- The commands `register_commands` adds only when a manager is active. -/
def managerCommands : List String :=
  ["dev", "ssh", "logs", "nodes", "agents", "events", "groups", "status",
   "plugins", "upgrade", "teardown", "rollback", "workflows", "snapshots",
   "blueprints", "executions", "install", "deployments", "uninstall",
   "maintenance", "node-instances"]

/-- The commands `register_commands` adds only in local mode. -/
def localCommands : List String := ["install", "uninstall", "node-instances"]

/-- `register_commands`: the command set registered at startup, decided by
`is_manager_active`. -/
def register_commands (fs : FS) (cwd : FsPath) : List String :=
  alwaysCommands ++
    (if is_manager_active fs cwd then managerCommands else localCommands)

/- ## Credential and trust resolver (`utils.py`) -/

/-- The environment variables the resolver consults
(`CLOUDIFY_USERNAME_ENV`, `CLOUDIFY_PASSWORD_ENV`, `CLOUDIFY_SSL_TRUST_ALL`,
`LOCAL_REST_CERT_FILE`): `none` is an unset variable. -/
structure Env where
  username : Option String := none
  password : Option String := none
  ssl_trust_all : Option String := none
  local_rest_cert_file : Option String := none

def get_username (env : Env) : Option String := env.username

def get_password (env : Env) : Option String := env.password

/-- `get_ssl_trust_all`: the mere non-empty presence of the variable enables
trust-all. -/
def get_ssl_trust_all (env : Env) : Bool :=
  match env.ssl_trust_all with
  | some v => 0 < v.length
  | none => false

/-- `get_rest_port`: the stored record always carries a port (defaulted at
construction). -/
def get_rest_port (fs : FS) (cwd : FsPath) : Except CliError Nat :=
  (loadSettingsFile fs cwd).map (fun s => s.rest_port)

def get_rest_protocol (fs : FS) (cwd : FsPath) : Except CliError String :=
  (loadSettingsFile fs cwd).map (fun s => s.rest_protocol)

/-- The "no manager selected" error of `get_rest_host` (the source quotes
the command with backticks: run `cfy use`). -/
def noManagerError : CliError :=
  { msg := "Must either first run " ++ ("cfy use" ++
      " or explicitly provide a manager IP")
    possible_solutions := [] }

/-- `get_rest_host`: the stored `management_host`, mandatory. -/
def get_rest_host (fs : FS) (cwd : FsPath) : Except CliError String :=
  match loadSettingsFile fs cwd with
  | .error e => .error e
  | .ok s =>
    match s.management_host with
    | some h => if h = "" then .error noManagerError else .ok h
    | none => .error noManagerError

/-- The error of `get_default_rest_cert_local_path` when no working
directory is set. -/
def certPathError : CliError :=
  { msg := "The default path for REST certificates cannot be calculated " ++
      "because a working directory is not set."
    possible_solutions :=
      ["Run cfy init or cfy use to initialize a working directory"] }

def get_default_rest_cert_local_path (fs : FS) (cwd : FsPath) :
    Except CliError FsPath :=
  match get_init_path fs cwd with
  | some init_path => .ok (joinPath init_path PUBLIC_REST_CERT)
  | none => .error certPathError

/-- `get_ssl_cert`: a truthy environment override wins; otherwise the
default path under the marker directory if that file exists, else no
certificate. -/
def get_ssl_cert (fs : FS) (cwd : FsPath) (env : Env) :
    Except CliError (Option String) :=
  if truthyStr env.local_rest_cert_file then .ok env.local_rest_cert_file
  else
    match get_default_rest_cert_local_path fs cwd with
    | .error e => .error e
    | .ok p => .ok (if fs.pathIsFile p then some (pathToString p) else none)

/-- The certificate `get_ssl_cert` resolves to once the marker directory
`ip` is known: environment override first, else the default path under the
marker when that file exists, else none. -/
def resolvedCertValue (fs : FS) (ip : FsPath) (env : Env) : Option String :=
  if truthyStr env.local_rest_cert_file then env.local_rest_cert_file
  else if fs.pathIsFile (joinPath ip PUBLIC_REST_CERT) then
    some (pathToString (joinPath ip PUBLIC_REST_CERT))
  else none

/-- The Basic-auth header computed by `get_auth_header` when both
credentials are truthy; the base64 encoding of the `username:password` pair
is abstracted to the pair itself. -/
def get_auth_header (username password : Option String) :
    Option (String × String) :=
  match username, password with
  | some u, some p => if u = "" || p = "" then none else some (u, p)
  | _, _ => none

/-- The parameters handed to the `CloudifyClient` constructor. -/
structure RestClientParams where
  host : String
  port : Nat
  protocol : String
  headers : Option (String × String)
  cert : Option String
  trust_all : Bool

/-- Python falsiness for an optional string argument: `None` and `""` both
fail an `if not x` test. -/
def truthyOptStr : Option String → Option String
  | some s => if s = "" then none else some s
  | none => none

/-- Python falsiness for an optional integer argument: `None` and `0` both
fail an `if not x` test. -/
def truthyOptNat : Option Nat → Option Nat
  | some n => if n = 0 then none else some n
  | none => none

/-- `if not rest_host: rest_host = get_rest_host()`. -/
def resolveHost (fs : FS) (cwd : FsPath) (rest_host : Option String) :
    Except CliError String :=
  match truthyOptStr rest_host with
  | some h => .ok h
  | none => get_rest_host fs cwd

/-- `if not rest_port: rest_port = get_rest_port()`. -/
def resolvePort (fs : FS) (cwd : FsPath) (rest_port : Option Nat) :
    Except CliError Nat :=
  match truthyOptNat rest_port with
  | some p => .ok p
  | none => get_rest_port fs cwd

/-- `if not rest_protocol: rest_protocol = get_rest_protocol()`. -/
def resolveProtocol (fs : FS) (cwd : FsPath) (rest_protocol : Option String) :
    Except CliError String :=
  match truthyOptStr rest_protocol with
  | some pr => .ok pr
  | none => get_rest_protocol fs cwd

/-- `if not username: username = get_username()` (and likewise for the
password). -/
def firstSet (override fallback : Option String) : Option String :=
  match override with
  | some x => some x
  | none => fallback

/-- `if trust_all is None: trust_all = get_ssl_trust_all()` — an explicit
`is None` test, not a falsiness test. -/
def resolveTrustAll (env : Env) (trust_all : Option Bool) : Bool :=
  match trust_all with
  | some b => b
  | none => get_ssl_trust_all env

/-- `get_rest_client`: fill each unset connection parameter in the source
order (host, port, protocol, username, password, header, trust-all, cert)
and build the client parameters.  The version-compatibility check at the end
of the source is unconditionally disabled (`skip_version_check or True`), so
the client is always returned. -/
def get_rest_client (fs : FS) (cwd : FsPath) (env : Env)
    (rest_host : Option String) (rest_port : Option Nat)
    (rest_protocol : Option String) (username password : Option String)
    (trust_all : Option Bool) (skip_version_check : Bool) :
    Except CliError RestClientParams :=
  match resolveHost fs cwd rest_host with
  | .error e => .error e
  | .ok host =>
    match resolvePort fs cwd rest_port with
    | .error e => .error e
    | .ok port =>
      match resolveProtocol fs cwd rest_protocol with
      | .error e => .error e
      | .ok protocol =>
        match get_ssl_cert fs cwd env with
        | .error e => .error e
        | .ok cert =>
          let _ := skip_version_check
          .ok ⟨host, port, protocol,
            get_auth_header (firstSet (truthyOptStr username) (get_username env))
              (firstSet (truthyOptStr password) (get_password env)),
            cert, resolveTrustAll env trust_all⟩

/- ## Configuration resolver (`utils.py`) -/

/-- `CloudifyConfig`, wrapping the parsed configuration mapping. -/
structure CloudifyConfig where
  _config : List (String × Yaml)

def CloudifyConfig.colors (c : CloudifyConfig) : Yaml :=
  (ylookup c._config "colors").getD (Yaml.bool false)

def CloudifyConfig.auto_generate_ids (c : CloudifyConfig) : Yaml :=
  (ylookup c._config "auto_generate_ids").getD (Yaml.bool false)

def CloudifyConfig.local_provider_context (c : CloudifyConfig) : Yaml :=
  (ylookup c._config "local_provider_context").getD (Yaml.dict [])

def CloudifyConfig.local_import_resolver (c : CloudifyConfig) : Yaml :=
  (ylookup c._config IMPORT_RESOLVER_KEY).getD (Yaml.dict [])

def CloudifyConfig.validate_definitions_version (c : CloudifyConfig) : Yaml :=
  (ylookup c._config "validate_definitions_version").getD (Yaml.bool true)

/-- `get_configuration_path`: `config.yaml` under the marker directory
(`os.path.join` would crash on `None`; every caller guards with
`is_initialized`). -/
def get_configuration_path (fs : FS) (cwd : FsPath) : Option FsPath :=
  (get_init_path fs cwd).map (fun p => joinPath p "config.yaml")

/-- `is_use_colors`: the documented default when uninitialized, else the
`colors` key of the freshly parsed configuration file.  Written as a match
on `get_init_path`, which the source reaches through `is_initialized` and
`get_configuration_path`. -/
def is_use_colors (fs : FS) (cwd : FsPath) : Yaml :=
  match get_init_path fs cwd with
  | none => Yaml.bool false
  | some p => (CloudifyConfig.mk (fs.configAt (joinPath p "config.yaml"))).colors

def is_auto_generate_ids (fs : FS) (cwd : FsPath) : Yaml :=
  match get_init_path fs cwd with
  | none => Yaml.bool false
  | some p =>
    (CloudifyConfig.mk (fs.configAt (joinPath p "config.yaml"))).auto_generate_ids

def is_validate_definitions_version (fs : FS) (cwd : FsPath) : Yaml :=
  match get_init_path fs cwd with
  | none => Yaml.bool true
  | some p =>
    (CloudifyConfig.mk
      (fs.configAt (joinPath p "config.yaml"))).validate_definitions_version

/- ## Input normalizer (`utils.py`) -/

/-- The message of the Invalid-input-format error of `plain_string_to_dict`,
formatted with the stripped input string. -/
def plainInvalidFormatMsg (stripped : String) : String :=
  "Invalid input format: " ++
    (stripped ++ ", the expected format is: key1=value1;key2=value2")

/-- The per-segment loop of `plain_string_to_dict`: skip segments that strip
to empty; a segment splitting on `=` into exactly two parts contributes its
trimmed key and value; any other segment raises immediately. -/
def plainSegments :
    List String → String → List (String × String) →
      Except CliError (List (String × String))
  | [], _, input_dict => .ok input_dict
  | seg :: rest, orig, input_dict =>
    if pyStrip seg = "" then plainSegments rest orig input_dict
    else
      match pySplit '=' (pyStrip seg) with
      | [k, v] =>
        plainSegments rest orig (updateOne input_dict (pyStrip k) (pyStrip v))
      | _ => .error ⟨plainInvalidFormatMsg orig, []⟩

/-- `plain_string_to_dict`: strip the input, split on `;` and process every
segment. -/
def plain_string_to_dict (input_string : String) :
    Except CliError (List (String × String)) :=
  let stripped := pyStrip input_string
  plainSegments (pySplit ';' stripped) stripped []

/-- The trimmed key/value pairs of the well-formed segments of a segment
list, in order (a segment that strips to empty splits on `=` into the single
part `""`, so it contributes nothing). -/
def segPairs : List String → List (String × String)
  | [] => []
  | seg :: rest =>
    match pySplit '=' (pyStrip seg) with
    | [k, v] => (pyStrip k, pyStrip v) :: segPairs rest
    | _ => segPairs rest

/-- The environment `inputs_to_dict` interacts with: the filesystem keyed by
Python path strings, glob expansion, and the external YAML parser (applied
to a named file's content by `parseFile`, to a raw string by `parseText`);
a parser `.error` is a raised `yaml.error.YAMLError` with its message. -/
structure InputsEnv where
  isFile : String → Bool
  isDir : String → Bool
  listdir : String → List String
  globMatches : String → List String
  parseFile : String → Except String Yaml
  parseText : String → Except String Yaml

def pyPathJoin (dir entry : String) : String := dir ++ ("/" ++ entry)

/-- The message of the not-valid-YAML error (the source wraps the resource
in quotes). -/
def notValidYamlMsg (resource parserMsg : String) : String :=
  resource ++ (" is not a valid YAML. " ++ parserMsg)

/-- The fixed tail of the must-represent-a-dictionary error message (the
source also quotes *-inputs.yaml in the wildcard example). -/
def invalidInputTail : String :=
  " must represent a dictionary. Valid values can be one of:\n - a path to a YAML file\n - a path to a directory containing YAML files\n - a single quoted wildcard based path (e.g. *-inputs.yaml)\n - a string formatted as JSON\n - a string formatted as key1=value1;key2=value2"

/-- The message of the must-represent-a-dictionary error, naming the
offending resource and the `resource_name`. -/
def invalidInputMsg (resource resource_name : String) : String :=
  "Invalid input: " ++ (resource ++ (". " ++ (resource_name ++ invalidInputTail)))

/-- `handle_inputs_source`: first try the resource as an inline
`key=value;...` string; on a `CloudifyCliError` fall back to parsing the
file at that path (when it is a file) or the raw text as YAML.  A mapping is
merged into the accumulator, `None` is silently skipped, anything else is
fatal. -/
def handle_inputs_source (env : InputsEnv) (resource resource_name : String)
    (parsed_dict : List (String × Yaml)) :
    Except CliError (List (String × Yaml)) :=
  let contentE : Except CliError Yaml :=
    match plain_string_to_dict resource with
    | .ok d => .ok (Yaml.dict (d.map (fun kv => (kv.1, Yaml.str kv.2))))
    | .error _ =>
      match (if env.isFile resource then env.parseFile resource
             else env.parseText resource) with
      | .ok y => .ok y
      | .error e => .error ⟨notValidYamlMsg resource e, []⟩
  match contentE with
  | .error e => .error e
  | .ok (Yaml.dict entries) => .ok (updateAll parsed_dict entries)
  | .ok Yaml.null => .ok parsed_dict
  | .ok _ => .error ⟨invalidInputMsg resource resource_name, []⟩

/-- An element of the `resources` argument: the loop only distinguishes
strings (`isinstance(resource, str)`) from everything else, so a non-string
element carries just its Python truthiness. -/
inductive PyVal where
  | str (s : String)
  | nonstr (truthy : Bool)

def isStrVal : PyVal → Bool
  | .str _ => true
  | .nonstr _ => false

def pyValTruthy : PyVal → Bool
  | .str s => !(s == "")
  | .nonstr b => b

/-- The `resources` argument itself: absent (`None`), a single bare value,
or a list of values. -/
inductive ResourcesArg where
  | absent
  | single (v : PyVal)
  | listed (vs : List PyVal)

/-- Python `if not resources`. -/
def resourcesFalsy : ResourcesArg → Bool
  | .absent => true
  | .single v => !pyValTruthy v
  | .listed vs => vs.isEmpty

/-- `if not isinstance(resources, list): resources = [resources]` (the
absent case never reaches this point). -/
def resourcesToList : ResourcesArg → List PyVal
  | .absent => []
  | .single v => [v]
  | .listed vs => vs

/-- The per-resource step of `inputs_to_dict`: non-strings are silently
ignored; a directory has each of its listed entries handled as its own
source; otherwise each glob match is handled; otherwise the string itself
is. -/
def handleResource (env : InputsEnv) (resource_name : String)
    (parsed_dict : List (String × Yaml)) :
    PyVal → Except CliError (List (String × Yaml))
  | .nonstr _ => .ok parsed_dict
  | .str resource =>
    let input_files := env.globMatches resource
    if env.isDir resource then
      (env.listdir resource).foldlM
        (fun acc f =>
          handle_inputs_source env (pyPathJoin resource f) resource_name acc)
        parsed_dict
    else if !input_files.isEmpty then
      input_files.foldlM
        (fun acc f => handle_inputs_source env f resource_name acc)
        parsed_dict
    else
      handle_inputs_source env resource resource_name parsed_dict

/-- `inputs_to_dict`: `None` for a falsy argument, else the merge of every
processed source. -/
def inputs_to_dict (env : InputsEnv) (resources : ResourcesArg)
    (resource_name : String) :
    Except CliError (Option (List (String × Yaml))) :=
  if resourcesFalsy resources then .ok none
  else
    match (resourcesToList resources).foldlM
        (fun acc r => handleResource env resource_name acc r) [] with
    | .ok parsed_dict => .ok (some parsed_dict)
    | .error e => .error e

/- ## Concrete fixtures used by the witness theorems -/

/-- A filesystem with no marker anywhere. -/
def emptyFS : FS :=
  { pathExists := fun _ => false
    pathIsFile := fun _ => false
    contentAt := fun _ => {}
    configAt := fun _ => [] }

/-- A sample stored settings record: a selected manager and a stored REST
port of 443. -/
def sampleSettings : CloudifyWorkingDirectorySettings :=
  { management_host := some "10.0.0.1", rest_port := 443 }

/-- A filesystem initialized at the root: the marker directory and the
settings file beneath it exist, and the settings file deserializes to the
given record. -/
def initializedFS (s : CloudifyWorkingDirectorySettings) : FS :=
  { pathExists := fun p =>
      p == [CLOUDIFY_WD_SETTINGS_DIRECTORY_NAME] ||
        p == [CLOUDIFY_WD_SETTINGS_FILE_NAME, CLOUDIFY_WD_SETTINGS_DIRECTORY_NAME]
    pathIsFile := fun p =>
      p == [CLOUDIFY_WD_SETTINGS_FILE_NAME, CLOUDIFY_WD_SETTINGS_DIRECTORY_NAME]
    contentAt := fun _ => s
    configAt := fun _ => [] }

/-- A filesystem whose marker directory exists at the root but whose
settings file is missing. -/
def markerOnlyFS : FS :=
  { pathExists := fun p => p == [CLOUDIFY_WD_SETTINGS_DIRECTORY_NAME]
    pathIsFile := fun _ => false
    contentAt := fun _ => {}
    configAt := fun _ => [] }

/-- An inputs environment holding one directory `dir` with two YAML files
that share the key `k` and differ elsewhere. -/
def sampleInputsEnv : InputsEnv :=
  { isFile := fun p => p == "dir/a.yaml" || p == "dir/b.yaml"
    isDir := fun p => p == "dir"
    listdir := fun p => if p == "dir" then ["a.yaml", "b.yaml"] else []
    globMatches := fun _ => []
    parseFile := fun p =>
      if p == "dir/a.yaml" then
        .ok (Yaml.dict [("x", Yaml.int 1), ("k", Yaml.int 1)])
      else if p == "dir/b.yaml" then
        .ok (Yaml.dict [("y", Yaml.int 2), ("k", Yaml.int 2)])
      else .error "unreadable"
    parseText := fun t =>
      if t == "[1]" then .ok (Yaml.list [Yaml.int 1])
      else .error "mapping values are not allowed here" }

/-- The record the C4 witness writes back through the scoped update. -/
def mutatedSettings : CloudifyWorkingDirectorySettings :=
  { management_host := some "10.0.0.1", management_user := some "bob"
    rest_port := 443 }

/- ## Lemmas about Python dict semantics -/

theorem pySplit_empty_str (c : Char) : pySplit c "" = [""] := rfl

theorem orGet_none_right {α : Type} (a : Option α) : orGet a none = a := by
  cases a <;> rfl

theorem ylookup_nil {α : Type} (k : String) :
    ylookup ([] : List (String × α)) k = none := rfl

theorem ylookup_updateOne {α : Type} (m : List (String × α)) (k k' : String)
    (v : α) :
    ylookup (updateOne m k v) k' = if k = k' then some v else ylookup m k' := by
  induction m with
  | nil => simp [updateOne, ylookup]
  | cons kv rest ih =>
    obtain ⟨k1, v1⟩ := kv
    by_cases h1 : k1 = k
    · subst h1
      by_cases h2 : k1 = k' <;> simp [updateOne, ylookup, h2]
    · by_cases h3 : k = k'
      · subst h3
        simp [updateOne, ylookup, h1, ih]
      · by_cases h2 : k1 = k'
        · subst h2
          simp [updateOne, ylookup, h1, h3]
        · simp [updateOne, ylookup, h1, h2, h3, ih]

theorem ylookup_updateAll {α : Type} (entries : List (String × α)) :
    ∀ (m : List (String × α)) (k : String),
      ylookup (updateAll m entries) k = orGet (lookupLast entries k) (ylookup m k) := by
  induction entries with
  | nil => intro m k; simp [updateAll, lookupLast, orGet]
  | cons kv rest ih =>
    intro m k
    obtain ⟨k1, v1⟩ := kv
    have step : updateAll m ((k1, v1) :: rest) = updateAll (updateOne m k1 v1) rest := rfl
    rw [step, ih, ylookup_updateOne]
    show _ = orGet (match lookupLast rest k with
      | some w => some w
      | none => if k1 = k then some v1 else none) (ylookup m k)
    cases hrest : lookupLast rest k with
    | some w => rfl
    | none =>
      by_cases h : k1 = k
      · simp [orGet, h]
      · simp [orGet, h]

/- ## Lemmas about the inline key=value parser -/

theorem plainSegments_ok (orig : String) :
    ∀ (segs : List String) (acc : List (String × String)),
      (∀ seg ∈ segs,
        pyStrip seg = "" ∨ (pySplit '=' (pyStrip seg)).length = 2) →
      plainSegments segs orig acc = .ok (updateAll acc (segPairs segs)) := by
  intro segs
  induction segs with
  | nil => intro acc _; simp [plainSegments, segPairs, updateAll]
  | cons seg rest ih =>
    intro acc h
    have hrest : ∀ s ∈ rest,
        pyStrip s = "" ∨ (pySplit '=' (pyStrip s)).length = 2 :=
      fun s hs => h s (by simp [hs])
    by_cases he2 : pyStrip seg = ""
    · have hl : plainSegments (seg :: rest) orig acc = plainSegments rest orig acc := by
        simp [plainSegments, he2]
      have hr : segPairs (seg :: rest) = segPairs rest := by
        simp [segPairs, he2, pySplit_empty_str]
      rw [hl, hr]
      exact ih acc hrest
    · rcases h seg (by simp) with he | hl
      · exact absurd he he2
      · obtain ⟨k, v, hkv⟩ := List.length_eq_two.mp hl
        have hls : plainSegments (seg :: rest) orig acc =
            plainSegments rest orig (updateOne acc (pyStrip k) (pyStrip v)) := by
          simp [plainSegments, he2, hkv]
        have hrs : segPairs (seg :: rest) =
            (pyStrip k, pyStrip v) :: segPairs rest := by
          simp [segPairs, hkv]
        rw [hls, hrs]
        exact ih (updateOne acc (pyStrip k) (pyStrip v)) hrest

theorem plainSegments_err (orig : String) :
    ∀ (segs : List String) (acc : List (String × String)),
      (∃ seg ∈ segs,
        pyStrip seg ≠ "" ∧ (pySplit '=' (pyStrip seg)).length ≠ 2) →
      plainSegments segs orig acc = .error ⟨plainInvalidFormatMsg orig, []⟩ := by
  intro segs
  induction segs with
  | nil => intro acc h; simp at h
  | cons seg rest ih =>
    intro acc h
    by_cases he2 : pyStrip seg = ""
    · have hstep : plainSegments (seg :: rest) orig acc = plainSegments rest orig acc := by
        simp [plainSegments, he2]
      rw [hstep]
      rcases h with ⟨s, hs, hne, hln⟩
      rcases List.mem_cons.mp hs with rfl | hs'
      · exact absurd he2 hne
      · exact ih acc ⟨s, hs', hne, hln⟩
    · by_cases hl : (pySplit '=' (pyStrip seg)).length = 2
      · obtain ⟨k, v, hkv⟩ := List.length_eq_two.mp hl
        have hstep : plainSegments (seg :: rest) orig acc =
            plainSegments rest orig (updateOne acc (pyStrip k) (pyStrip v)) := by
          simp [plainSegments, he2, hkv]
        rw [hstep]
        rcases h with ⟨s, hs, hne, hln⟩
        rcases List.mem_cons.mp hs with rfl | hs'
        · exact absurd hl hln
        · exact ih _ ⟨s, hs', hne, hln⟩
      · rcases hsp : pySplit '=' (pyStrip seg) with _ | ⟨a, _ | ⟨b, _ | ⟨c, t⟩⟩⟩
        · simp [plainSegments, he2, hsp]
        · simp [plainSegments, he2, hsp]
        · rw [hsp] at hl
          simp at hl
        · simp [plainSegments, he2, hsp]

/-- C3: for every input string whose nonempty semicolon-separated segments
each split on the equals sign into exactly two parts (i.e. contain exactly
one equals sign), `plain_string_to_dict` returns the mapping holding exactly
the trimmed key/value pairs of those segments (later duplicates of a key
overwrite earlier ones, as Python dict assignment does); for every input
string with a nonempty segment that does not, it raises the
Invalid-input-format error instead. -/
theorem plain_string_to_dict_spec (s : String) :
    ((∀ seg ∈ pySplit ';' (pyStrip s),
        pyStrip seg = "" ∨ (pySplit '=' (pyStrip seg)).length = 2) →
      plain_string_to_dict s =
        .ok (updateAll [] (segPairs (pySplit ';' (pyStrip s)))) ∧
      ∀ k, ylookup (updateAll [] (segPairs (pySplit ';' (pyStrip s)))) k =
        lookupLast (segPairs (pySplit ';' (pyStrip s))) k) ∧
    ((∃ seg ∈ pySplit ';' (pyStrip s),
        pyStrip seg ≠ "" ∧ (pySplit '=' (pyStrip seg)).length ≠ 2) →
      plain_string_to_dict s = .error ⟨plainInvalidFormatMsg (pyStrip s), []⟩) := by
  constructor
  · intro h
    constructor
    · exact plainSegments_ok (pyStrip s) (pySplit ';' (pyStrip s)) [] h
    · intro k
      rw [ylookup_updateAll, ylookup_nil, orGet_none_right]
  · intro h
    exact plainSegments_err (pyStrip s) (pySplit ';' (pyStrip s)) [] h

/-- C3 witness: a concrete well-formed inline string resolves to its trimmed
pairs, via `plain_string_to_dict_spec`. -/
theorem plain_string_to_dict_spec_witness :
    plain_string_to_dict " color = red ;size=2; " =
      .ok [("color", "red"), ("size", "2")] := by
  have h := ((plain_string_to_dict_spec " color = red ;size=2; ").1 (by decide)).1
  rw [h]
  rfl

/- ## Lemmas about the marker search -/

theorem get_init_path_none (fs : FS) :
    ∀ cwd : FsPath,
      (∀ k, k ≤ cwd.length →
        fs.pathExists (joinPath (cwd.drop k) CLOUDIFY_WD_SETTINGS_DIRECTORY_NAME) = false) →
      get_init_path fs cwd = none
  | [], h => by
    have h0 := h 0 (by simp)
    rw [List.drop_nil] at h0
    simp [get_init_path, h0]
  | d :: rest, h => by
    have h0 := h 0 (by simp)
    rw [List.drop_zero] at h0
    rw [show get_init_path fs (d :: rest) =
        if fs.pathExists (joinPath (d :: rest) CLOUDIFY_WD_SETTINGS_DIRECTORY_NAME) then
          some (joinPath (d :: rest) CLOUDIFY_WD_SETTINGS_DIRECTORY_NAME)
        else get_init_path fs rest from rfl]
    rw [h0]
    simp only [Bool.false_eq_true, if_false]
    exact get_init_path_none fs rest (fun k hk => by
      have := h (k + 1) (by simpa using Nat.succ_le_succ hk)
      simpa [List.drop_succ_cons] using this)

theorem get_init_path_found (fs : FS) :
    ∀ (cwd : FsPath) (k : Nat), k ≤ cwd.length →
      fs.pathExists (joinPath (cwd.drop k) CLOUDIFY_WD_SETTINGS_DIRECTORY_NAME) = true →
      (∀ j, j < k →
        fs.pathExists (joinPath (cwd.drop j) CLOUDIFY_WD_SETTINGS_DIRECTORY_NAME) = false) →
      get_init_path fs cwd = some (joinPath (cwd.drop k) CLOUDIFY_WD_SETTINGS_DIRECTORY_NAME)
  | [], k, hk, hex, _ => by
    have hk0 : k = 0 := Nat.le_zero.mp (by simpa using hk)
    subst hk0
    simp only [List.drop] at hex ⊢
    simp [get_init_path, hex]
  | d :: rest, 0, _, hex, _ => by
    rw [List.drop_zero] at hex ⊢
    rw [show get_init_path fs (d :: rest) =
        if fs.pathExists (joinPath (d :: rest) CLOUDIFY_WD_SETTINGS_DIRECTORY_NAME) then
          some (joinPath (d :: rest) CLOUDIFY_WD_SETTINGS_DIRECTORY_NAME)
        else get_init_path fs rest from rfl]
    rw [hex]
    simp
  | d :: rest, k + 1, hk, hex, hmin => by
    have h0 := hmin 0 (Nat.succ_pos k)
    rw [List.drop_zero] at h0
    rw [show get_init_path fs (d :: rest) =
        if fs.pathExists (joinPath (d :: rest) CLOUDIFY_WD_SETTINGS_DIRECTORY_NAME) then
          some (joinPath (d :: rest) CLOUDIFY_WD_SETTINGS_DIRECTORY_NAME)
        else get_init_path fs rest from rfl]
    rw [h0]
    simp only [Bool.false_eq_true, if_false, List.drop_succ_cons]
    exact get_init_path_found fs rest k (by simpa using hk)
      (by simpa [List.drop_succ_cons] using hex)
      (fun j hj => by
        have := hmin (j + 1) (by omega)
        simpa [List.drop_succ_cons] using this)

/-- C6: `get_init_path` walks the directory tree upward from the current
working directory.  If no ancestor (the directory itself, each parent, up to
and including the root `[]`) holds the marker, it returns `none`; if the
nearest ancestor holding the marker is `k` levels up, it returns that
marker's path. -/
theorem get_init_path_spec (fs : FS) (cwd : FsPath) :
    ((∀ k, k ≤ cwd.length →
        fs.pathExists (joinPath (cwd.drop k) CLOUDIFY_WD_SETTINGS_DIRECTORY_NAME) = false) →
      get_init_path fs cwd = none) ∧
    (∀ k, k ≤ cwd.length →
      fs.pathExists (joinPath (cwd.drop k) CLOUDIFY_WD_SETTINGS_DIRECTORY_NAME) = true →
      (∀ j, j < k →
        fs.pathExists (joinPath (cwd.drop j) CLOUDIFY_WD_SETTINGS_DIRECTORY_NAME) = false) →
      get_init_path fs cwd =
        some (joinPath (cwd.drop k) CLOUDIFY_WD_SETTINGS_DIRECTORY_NAME)) :=
  ⟨get_init_path_none fs cwd, fun k => get_init_path_found fs cwd k⟩

/-- C6 witness: started three levels below a marker at the root, the walk
returns that marker's path, via `get_init_path_spec`. -/
theorem get_init_path_spec_witness :
    get_init_path markerOnlyFS ["c", "b", "a"] =
      some [CLOUDIFY_WD_SETTINGS_DIRECTORY_NAME] := by
  have h := (get_init_path_spec markerOnlyFS ["c", "b", "a"]).2 3
    (by decide) (by decide) (by decide)
  exact h

/-- C5: with no marker found, `load` returns `None` under suppression and
otherwise fails with the uninitialized error carrying the run-init
remediation hint; with a marker present but the settings file beneath it
missing, it fails with the distinct missing-settings-file error (a different
error value, carrying no remediation), not a success and not the
uninitialized error. -/
theorem load_settings_errors_spec (fs : FS) (cwd : FsPath) :
    (get_init_path fs cwd = none →
      load_cloudify_working_dir_settings fs cwd true = .ok none ∧
      load_cloudify_working_dir_settings fs cwd false =
        .error (uninitializedError cwd) ∧
      (uninitializedError cwd).possible_solutions =
        ["Run cfy init in this directory"]) ∧
    (∀ p, get_init_path fs cwd = some p →
      fs.pathExists (joinPath p CLOUDIFY_WD_SETTINGS_FILE_NAME) = false →
      load_cloudify_working_dir_settings fs cwd false =
        .error (missingSettingsFileError (joinPath p CLOUDIFY_WD_SETTINGS_FILE_NAME)) ∧
      missingSettingsFileError (joinPath p CLOUDIFY_WD_SETTINGS_FILE_NAME) ≠
        uninitializedError cwd) := by
  constructor
  · intro h
    refine ⟨?_, ?_, rfl⟩
    · simp [load_cloudify_working_dir_settings, loadSettingsFile,
        get_context_path, h, Except.map]
    · simp [load_cloudify_working_dir_settings, loadSettingsFile,
        get_context_path, h, Except.map]
  · intro p hp hub
    constructor
    · simp [load_cloudify_working_dir_settings, loadSettingsFile,
        get_context_path, hp, hub, Except.map]
    · intro hcontra
      have := congrArg CliError.possible_solutions hcontra
      simp [missingSettingsFileError, uninitializedError] at this

/-- C5 witness: in a directory with no marker, suppressed loading yields
`None`; with a marker at the root but no settings file, unsuppressed loading
yields the missing-settings-file error; both via `load_settings_errors_spec`. -/
theorem load_settings_errors_spec_witness :
    load_cloudify_working_dir_settings emptyFS ["a"] true = .ok none ∧
    load_cloudify_working_dir_settings markerOnlyFS [] false =
      .error (missingSettingsFileError
        [CLOUDIFY_WD_SETTINGS_FILE_NAME, CLOUDIFY_WD_SETTINGS_DIRECTORY_NAME]) := by
  constructor
  · exact ((load_settings_errors_spec emptyFS ["a"]).1 rfl).1
  · exact ((load_settings_errors_spec markerOnlyFS []).2
      [CLOUDIFY_WD_SETTINGS_DIRECTORY_NAME] rfl rfl).1

/-- C1: `is_manager_active` is false when the working directory is
uninitialized, false when a loaded record has no truthy `management_host`,
and true exactly when suppressed loading returns a record with a truthy
`management_host`; `register_commands` registers the always-on commands
plus either the manager-mode or the local-mode set according to that value. -/
theorem is_manager_active_spec (fs : FS) (cwd : FsPath) :
    (is_manager_active fs cwd = true ↔
      ∃ s, load_cloudify_working_dir_settings fs cwd true = .ok (some s) ∧
        truthyStr s.management_host = true) ∧
    (get_init_path fs cwd = none → is_manager_active fs cwd = false) ∧
    (∀ s, load_cloudify_working_dir_settings fs cwd true = .ok (some s) →
      truthyStr s.management_host = false → is_manager_active fs cwd = false) ∧
    register_commands fs cwd =
      alwaysCommands ++
        (if is_manager_active fs cwd then managerCommands else localCommands) := by
  refine ⟨?_, ?_, ?_, rfl⟩
  · cases hls : loadSettingsFile fs cwd with
    | ok s =>
      have hld : load_cloudify_working_dir_settings fs cwd true = .ok (some s) := by
        simp [load_cloudify_working_dir_settings, hls]
      constructor
      · intro h
        refine ⟨s, hld, ?_⟩
        simpa [is_manager_active, hld] using h
      · rintro ⟨s2, hs2, ht⟩
        rw [hld] at hs2
        injection hs2 with hs2
        injection hs2 with hs2
        subst hs2
        simpa [is_manager_active, hld] using ht
    | error e =>
      have hld : load_cloudify_working_dir_settings fs cwd true = .ok none := by
        simp [load_cloudify_working_dir_settings, hls]
      constructor
      · intro h
        simp [is_manager_active, hld] at h
      · rintro ⟨s2, hs2, _⟩
        rw [hld] at hs2
        injection hs2 with hs2
        exact absurd hs2 (by simp)
  · intro h
    simp [is_manager_active, load_cloudify_working_dir_settings,
      loadSettingsFile, get_context_path, h, Except.map]
  · intro s hld ht
    simp [is_manager_active, hld, ht]

/-- C1 witness: with no marker the selector reports no active manager; with
an initialized directory whose stored record has a host it reports one; both
via `is_manager_active_spec`. -/
theorem is_manager_active_spec_witness :
    is_manager_active emptyFS ["a"] = false ∧
    is_manager_active (initializedFS sampleSettings) [] = true := by
  constructor
  · exact (is_manager_active_spec emptyFS ["a"]).2.1 rfl
  · exact ((is_manager_active_spec (initializedFS sampleSettings) []).1).2
      ⟨sampleSettings, rfl, rfl⟩

/-- C4: the scoped update loads the settings, and on normal completion of
the scope persists the mutated record through `save(update=True)` — the
settings file then holds the mutated record; an exception raised inside the
scope propagates (as `.inr`) and the filesystem is returned unchanged, so
nothing was written. -/
theorem update_wd_settings_spec (ε : Type) (fs : FS) (cwd : FsPath)
    (body : CloudifyWorkingDirectorySettings →
      Except ε CloudifyWorkingDirectorySettings)
    (s : CloudifyWorkingDirectorySettings)
    (hload : loadSettingsFile fs cwd = .ok s) :
    (∀ e, body s = .error e →
      update_wd_settings ε fs cwd body = (.error (.inr e), fs)) ∧
    (∀ s2, body s = .ok s2 → ∀ p, get_context_path fs cwd = .ok p →
      update_wd_settings ε fs cwd body = (.ok (), writeSettings fs p s2) ∧
      (writeSettings fs p s2).contentAt p = s2) := by
  constructor
  · intro e he
    simp [update_wd_settings, hload, he]
  · intro s2 hs2 p hp
    constructor
    · simp [update_wd_settings, hload, hs2,
        dump_cloudify_working_dir_settings, hp]
    · simp [writeSettings]

/-- C4 witness: a scope that sets the management user persists it into the
settings file, via `update_wd_settings_spec`. -/
theorem update_wd_settings_spec_witness :
    update_wd_settings Unit (initializedFS sampleSettings) []
        (fun _ => Except.ok mutatedSettings) =
      (Except.ok (), writeSettings (initializedFS sampleSettings)
        [CLOUDIFY_WD_SETTINGS_FILE_NAME, CLOUDIFY_WD_SETTINGS_DIRECTORY_NAME]
        mutatedSettings) ∧
    (update_wd_settings Unit (initializedFS sampleSettings) []
        (fun _ => Except.ok mutatedSettings)).2.contentAt
      [CLOUDIFY_WD_SETTINGS_FILE_NAME, CLOUDIFY_WD_SETTINGS_DIRECTORY_NAME] =
      mutatedSettings := by
  have h := (update_wd_settings_spec Unit (initializedFS sampleSettings) []
    (fun _ => Except.ok mutatedSettings) sampleSettings rfl).2
    mutatedSettings rfl
    [CLOUDIFY_WD_SETTINGS_FILE_NAME, CLOUDIFY_WD_SETTINGS_DIRECTORY_NAME] rfl
  refine ⟨h.1, ?_⟩
  rw [h.1]
  exact h.2

/-- C9: when no marker exists, the configuration accessors return their
documented defaults (colors false, auto-generate-ids false,
validate-definitions-version true) without consulting any file; when a
marker exists, each accessor reads the parsed `config.yaml` beneath it and
still returns the same documented default whenever its key is absent. -/
theorem config_accessors_spec (fs : FS) (cwd : FsPath) :
    (get_init_path fs cwd = none →
      is_use_colors fs cwd = Yaml.bool false ∧
      is_auto_generate_ids fs cwd = Yaml.bool false ∧
      is_validate_definitions_version fs cwd = Yaml.bool true) ∧
    (∀ p, get_init_path fs cwd = some p →
      (is_use_colors fs cwd =
        (ylookup (fs.configAt (joinPath p "config.yaml")) "colors").getD
          (Yaml.bool false)) ∧
      (is_auto_generate_ids fs cwd =
        (ylookup (fs.configAt (joinPath p "config.yaml")) "auto_generate_ids").getD
          (Yaml.bool false)) ∧
      (is_validate_definitions_version fs cwd =
        (ylookup (fs.configAt (joinPath p "config.yaml"))
            "validate_definitions_version").getD (Yaml.bool true)) ∧
      (ylookup (fs.configAt (joinPath p "config.yaml")) "colors" = none →
        is_use_colors fs cwd = Yaml.bool false) ∧
      (ylookup (fs.configAt (joinPath p "config.yaml")) "auto_generate_ids" = none →
        is_auto_generate_ids fs cwd = Yaml.bool false) ∧
      (ylookup (fs.configAt (joinPath p "config.yaml"))
          "validate_definitions_version" = none →
        is_validate_definitions_version fs cwd = Yaml.bool true)) := by
  constructor
  · intro h
    refine ⟨?_, ?_, ?_⟩ <;>
      simp [is_use_colors, is_auto_generate_ids,
        is_validate_definitions_version, h]
  · intro p hp
    refine ⟨?_, ?_, ?_, ?_, ?_, ?_⟩
    · simp [is_use_colors, hp, CloudifyConfig.colors]
    · simp [is_auto_generate_ids, hp, CloudifyConfig.auto_generate_ids]
    · simp [is_validate_definitions_version, hp,
        CloudifyConfig.validate_definitions_version]
    · intro hk
      simp [is_use_colors, hp, CloudifyConfig.colors, hk]
    · intro hk
      simp [is_auto_generate_ids, hp, CloudifyConfig.auto_generate_ids, hk]
    · intro hk
      simp [is_validate_definitions_version, hp,
        CloudifyConfig.validate_definitions_version, hk]

/-- C9 witness: with no marker, the three accessors report their defaults;
via `config_accessors_spec`. -/
theorem config_accessors_spec_witness :
    is_use_colors emptyFS ["a"] = Yaml.bool false ∧
    is_auto_generate_ids emptyFS ["a"] = Yaml.bool false ∧
    is_validate_definitions_version emptyFS ["a"] = Yaml.bool true :=
  (config_accessors_spec emptyFS ["a"]).1 rfl

/-- C2: each unset connection field is filled in precedence order.  Given a
loadable settings record and a located marker: an explicit truthy host
override wins outright; with no truthy override the stored host is used when
set; in both cases the port and protocol are the truthy override when given,
else the stored values (which were defaulted to the built-in constants at
record construction, last conjunct); the auth header is built from the
override credentials when truthy, else the environment variables.  With no
truthy host override and no truthy stored host, the call fails with the
no-manager-selected error, whose message tells the user to run cfy use. -/
theorem get_rest_client_spec (fs : FS) (cwd : FsPath) (env : Env)
    (rest_host : Option String) (rest_port : Option Nat)
    (rest_protocol : Option String) (username password : Option String)
    (trust_all : Option Bool) (svc : Bool)
    (s : CloudifyWorkingDirectorySettings) (ip : FsPath)
    (hload : loadSettingsFile fs cwd = .ok s)
    (hip : get_init_path fs cwd = some ip) :
    (∀ h, truthyOptStr rest_host = some h →
      get_rest_client fs cwd env rest_host rest_port rest_protocol username
          password trust_all svc =
        .ok ⟨h, (truthyOptNat rest_port).getD s.rest_port,
          (truthyOptStr rest_protocol).getD s.rest_protocol,
          get_auth_header (firstSet (truthyOptStr username) env.username)
            (firstSet (truthyOptStr password) env.password),
          resolvedCertValue fs ip env, resolveTrustAll env trust_all⟩) ∧
    (truthyOptStr rest_host = none →
      ∀ hst, s.management_host = some hst → hst ≠ "" →
      get_rest_client fs cwd env rest_host rest_port rest_protocol username
          password trust_all svc =
        .ok ⟨hst, (truthyOptNat rest_port).getD s.rest_port,
          (truthyOptStr rest_protocol).getD s.rest_protocol,
          get_auth_header (firstSet (truthyOptStr username) env.username)
            (firstSet (truthyOptStr password) env.password),
          resolvedCertValue fs ip env, resolveTrustAll env trust_all⟩) ∧
    (truthyOptStr rest_host = none → truthyStr s.management_host = false →
      get_rest_client fs cwd env rest_host rest_port rest_protocol username
          password trust_all svc = .error noManagerError) ∧
    (∃ pre post, noManagerError.msg = pre ++ ("cfy use" ++ post)) ∧
    ({} : CloudifyWorkingDirectorySettings).rest_port = DEFAULT_REST_PORT ∧
    ({} : CloudifyWorkingDirectorySettings).rest_protocol = DEFAULT_PROTOCOL := by
  have hport : resolvePort fs cwd rest_port =
      .ok ((truthyOptNat rest_port).getD s.rest_port) := by
    cases htp : truthyOptNat rest_port with
    | some p => simp [resolvePort, htp]
    | none => simp [resolvePort, htp, get_rest_port, hload, Except.map]
  have hproto : resolveProtocol fs cwd rest_protocol =
      .ok ((truthyOptStr rest_protocol).getD s.rest_protocol) := by
    cases htp : truthyOptStr rest_protocol with
    | some pr => simp [resolveProtocol, htp]
    | none => simp [resolveProtocol, htp, get_rest_protocol, hload, Except.map]
  have hcert : get_ssl_cert fs cwd env = .ok (resolvedCertValue fs ip env) := by
    by_cases hc : truthyStr env.local_rest_cert_file
    · simp [get_ssl_cert, hc, resolvedCertValue]
    · simp [get_ssl_cert, hc, resolvedCertValue,
        get_default_rest_cert_local_path, hip]
  refine ⟨?_, ?_, ?_, ⟨"Must either first run ", " or explicitly provide a manager IP", rfl⟩, rfl, rfl⟩
  · intro h hh
    have hhost : resolveHost fs cwd rest_host = .ok h := by
      simp [resolveHost, hh]
    simp [get_rest_client, hhost, hport, hproto, hcert, get_username,
      get_password]
  · intro hh hst hmh hne
    have hhost : resolveHost fs cwd rest_host = .ok hst := by
      simp [resolveHost, hh, get_rest_host, hload, hmh, hne]
    simp [get_rest_client, hhost, hport, hproto, hcert, get_username,
      get_password]
  · intro hh hmf
    have hhost : resolveHost fs cwd rest_host = .error noManagerError := by
      cases hmh : s.management_host with
      | none => simp [resolveHost, hh, get_rest_host, hload, hmh]
      | some hst =>
        have : hst = "" := by
          rw [hmh] at hmf
          simpa [truthyStr] using hmf
        subst this
        simp [resolveHost, hh, get_rest_host, hload, hmh]
    simp [get_rest_client, hhost]

/-- C2 witness: with a stored port of 443 and no override the resolved port
is 443; with an explicit override of 8443 it is 8443 regardless of the
stored value; both via `get_rest_client_spec` at the same stored record. -/
theorem get_rest_client_spec_witness :
    get_rest_client (initializedFS sampleSettings) [] {} none none none none
        none none false =
      .ok ⟨"10.0.0.1", 443, DEFAULT_PROTOCOL, none, none, false⟩ ∧
    get_rest_client (initializedFS sampleSettings) [] {} none (some 8443) none
        none none none false =
      .ok ⟨"10.0.0.1", 8443, DEFAULT_PROTOCOL, none, none, false⟩ := by
  constructor
  · exact (get_rest_client_spec (initializedFS sampleSettings) [] {} none none
      none none none none false sampleSettings
      [CLOUDIFY_WD_SETTINGS_DIRECTORY_NAME] rfl rfl).2.1 rfl "10.0.0.1" rfl
      (by decide)
  · exact (get_rest_client_spec (initializedFS sampleSettings) [] {} none
      (some 8443) none none none none false sampleSettings
      [CLOUDIFY_WD_SETTINGS_DIRECTORY_NAME] rfl rfl).2.1 rfl "10.0.0.1" rfl
      (by decide)

/- ## Lemmas about the inputs normalizer -/

theorem exceptBind_ok {ε α β : Type} (a : α) (f : α → Except ε β) :
    (Except.ok a >>= f : Except ε β) = f a := rfl

theorem handle_dict_file (env : InputsEnv) (r rn : String)
    (acc : List (String × Yaml)) (err : CliError) (e : List (String × Yaml))
    (hp : plain_string_to_dict r = .error err) (hf : env.isFile r = true)
    (hc : env.parseFile r = .ok (Yaml.dict e)) :
    handle_inputs_source env r rn acc = .ok (updateAll acc e) := by
  simp [handle_inputs_source, hp, hf, hc]

/-- C8: for a source that is not an inline key=value string, with parse
outcome `y` (from the file at that path when it is one, else from the raw
text): a mapping is merged into the accumulator with Python dict update
semantics, a `None` result leaves the accumulator untouched and is no
error, and any other result raises the must-represent-a-dictionary error —
whose message embeds both the offending resource and the `resource_name`.
An inline key=value source is merged like a mapping of strings. -/
theorem handle_inputs_source_spec (env : InputsEnv) (r rn : String)
    (acc : List (String × Yaml)) :
    (∀ err y, plain_string_to_dict r = .error err →
      (if env.isFile r then env.parseFile r else env.parseText r) = .ok y →
      ((∀ e, y = Yaml.dict e →
        handle_inputs_source env r rn acc = .ok (updateAll acc e)) ∧
       (y = Yaml.null → handle_inputs_source env r rn acc = .ok acc) ∧
       ((∀ e, y ≠ Yaml.dict e) → y ≠ Yaml.null →
        handle_inputs_source env r rn acc =
          .error ⟨invalidInputMsg r rn, []⟩))) ∧
    (∀ d, plain_string_to_dict r = .ok d →
      handle_inputs_source env r rn acc =
        .ok (updateAll acc (d.map (fun kv => (kv.1, Yaml.str kv.2))))) ∧
    (∃ pre post, invalidInputMsg r rn = pre ++ (r ++ post)) ∧
    (∃ pre mid post,
      invalidInputMsg r rn = pre ++ (r ++ (mid ++ (rn ++ post)))) := by
  refine ⟨?_, ?_,
    ⟨"Invalid input: ", ". " ++ (rn ++ invalidInputTail), rfl⟩,
    ⟨"Invalid input: ", ". ", invalidInputTail, rfl⟩⟩
  · intro err y hplain hparse
    refine ⟨?_, ?_, ?_⟩
    · intro e hy
      subst hy
      simp [handle_inputs_source, hplain, hparse]
    · intro hy
      subst hy
      simp [handle_inputs_source, hplain, hparse]
    · intro hnd hnn
      cases y with
      | dict e => exact absurd rfl (hnd e)
      | null => exact absurd rfl hnn
      | bool b => simp [handle_inputs_source, hplain, hparse]
      | int n => simp [handle_inputs_source, hplain, hparse]
      | str s2 => simp [handle_inputs_source, hplain, hparse]
      | list xs => simp [handle_inputs_source, hplain, hparse]
  · intro d hd
    simp [handle_inputs_source, hd]

/-- C8 witness: a file parsing to a mapping is merged; a source parsing to a
list raises the must-represent-a-dictionary error; both via
`handle_inputs_source_spec`. -/
theorem handle_inputs_source_spec_witness :
    handle_inputs_source sampleInputsEnv "dir/a.yaml" "inputs" [] =
      .ok [("x", Yaml.int 1), ("k", Yaml.int 1)] ∧
    handle_inputs_source sampleInputsEnv "[1]" "inputs" [] =
      .error ⟨invalidInputMsg "[1]" "inputs", []⟩ := by
  constructor
  · exact ((handle_inputs_source_spec sampleInputsEnv "dir/a.yaml" "inputs" []).1
      ⟨plainInvalidFormatMsg "dir/a.yaml", []⟩
      (Yaml.dict [("x", Yaml.int 1), ("k", Yaml.int 1)]) rfl rfl).1
      [("x", Yaml.int 1), ("k", Yaml.int 1)] rfl
  · exact ((handle_inputs_source_spec sampleInputsEnv "[1]" "inputs" []).1
      ⟨plainInvalidFormatMsg "[1]", []⟩ (Yaml.list [Yaml.int 1]) rfl rfl).2.2
      (fun e h => by cases h) (by intro h; cases h)

/-- C7: for a directory whose listing is the two files `f1`, `f2`, each
entry is handled as its own source in listing order and the result is the
last-write-wins merge: a key bound only by the first file keeps its value, a
key bound by the later-processed file takes the later file's value. -/
theorem inputs_dir_merge_spec (env : InputsEnv) (d f1 f2 rn : String)
    (e1 e2 : List (String × Yaml)) (err1 err2 : CliError)
    (hd : d ≠ "") (hdir : env.isDir d = true)
    (hls : env.listdir d = [f1, f2])
    (hp1 : plain_string_to_dict (pyPathJoin d f1) = .error err1)
    (hf1 : env.isFile (pyPathJoin d f1) = true)
    (hc1 : env.parseFile (pyPathJoin d f1) = .ok (Yaml.dict e1))
    (hp2 : plain_string_to_dict (pyPathJoin d f2) = .error err2)
    (hf2 : env.isFile (pyPathJoin d f2) = true)
    (hc2 : env.parseFile (pyPathJoin d f2) = .ok (Yaml.dict e2)) :
    inputs_to_dict env (.single (.str d)) rn =
      .ok (some (updateAll (updateAll [] e1) e2)) ∧
    (∀ k, lookupLast e2 k = none →
      ylookup (updateAll (updateAll [] e1) e2) k = lookupLast e1 k) ∧
    (∀ k v, lookupLast e2 k = some v →
      ylookup (updateAll (updateAll [] e1) e2) k = some v) := by
  have h1 := handle_dict_file env (pyPathJoin d f1) rn [] err1 e1 hp1 hf1 hc1
  have h2 := handle_dict_file env (pyPathJoin d f2) rn (updateAll [] e1) err2
    e2 hp2 hf2 hc2
  refine ⟨?_, ?_, ?_⟩
  · simp [inputs_to_dict, resourcesFalsy, pyValTruthy, resourcesToList, hd,
      handleResource, hdir, hls, List.foldlM_cons, List.foldlM_nil, h1, h2,
      exceptBind_ok]
  · intro k hk
    rw [ylookup_updateAll, hk]
    show ylookup (updateAll [] e1) k = _
    rw [ylookup_updateAll, ylookup_nil, orGet_none_right]
  · intro k v hk
    rw [ylookup_updateAll, hk]
    rfl

/-- C7 witness: the sample directory's two files merge to the union with the
later file winning on the shared key `k`, via `inputs_dir_merge_spec`. -/
theorem inputs_dir_merge_spec_witness :
    inputs_to_dict sampleInputsEnv (.single (.str "dir")) "inputs" =
      .ok (some [("x", Yaml.int 1), ("k", Yaml.int 2), ("y", Yaml.int 2)]) ∧
    ylookup [("x", Yaml.int 1), ("k", Yaml.int 2), ("y", Yaml.int 2)] "k" =
      some (Yaml.int 2) ∧
    ylookup [("x", Yaml.int 1), ("k", Yaml.int 2), ("y", Yaml.int 2)] "x" =
      some (Yaml.int 1) := by
  have h := inputs_dir_merge_spec sampleInputsEnv "dir" "a.yaml" "b.yaml"
    "inputs" [("x", Yaml.int 1), ("k", Yaml.int 1)]
    [("y", Yaml.int 2), ("k", Yaml.int 2)]
    ⟨plainInvalidFormatMsg "dir/a.yaml", []⟩
    ⟨plainInvalidFormatMsg "dir/b.yaml", []⟩
    (by decide) rfl rfl rfl rfl rfl rfl rfl rfl
  exact ⟨h.1, h.2.2 "k" (Yaml.int 2) rfl, h.2.1 "x" rfl⟩

/- ## Lemma for non-string resources -/

theorem foldlM_nonstr (env : InputsEnv) (rn : String) :
    ∀ (vs : List PyVal) (acc : List (String × Yaml)),
      (∀ v ∈ vs, isStrVal v = false) →
      List.foldlM (fun a r => handleResource env rn a r) acc vs = .ok acc
  | [], _, _ => rfl
  | v :: rest, acc, h => by
    cases v with
    | str s => 
      have hh := h (PyVal.str s) (by simp)
      simp [isStrVal] at hh
    | nonstr b =>
      rw [List.foldlM_cons]
      show (handleResource env rn acc (.nonstr b)) >>= _ = _
      rw [show handleResource env rn acc (.nonstr b) = .ok acc from rfl]
      show List.foldlM (fun a r => handleResource env rn a r) acc rest = .ok acc
      exact foldlM_nonstr env rn rest acc (fun v hv => h v (by simp [hv]))

/-- C10: every non-string element of the resources list is silently
ignored, so a non-empty list of only non-string elements yields the empty
mapping, not `None`; and `None` is returned exactly when the resources
argument itself is falsy (absent or empty). -/
theorem inputs_nonstring_spec (env : InputsEnv) (rn : String) :
    (∀ vs : List PyVal, vs ≠ [] → (∀ v ∈ vs, isStrVal v = false) →
      inputs_to_dict env (.listed vs) rn = .ok (some [])) ∧
    (∀ r : ResourcesArg,
      inputs_to_dict env r rn = .ok none ↔ resourcesFalsy r = true) := by
  constructor
  · intro vs hne hns
    have hf : resourcesFalsy (.listed vs) = false := by
      simp [resourcesFalsy, hne]
    simp [inputs_to_dict, hf, resourcesToList,
      foldlM_nonstr env rn vs [] hns]
  · intro r
    constructor
    · intro h
      by_cases hf : resourcesFalsy r = true
      · exact hf
      · exfalso
        rw [inputs_to_dict, if_neg hf] at h
        cases hfold : List.foldlM (fun a x => handleResource env rn a x) []
            (resourcesToList r) with
        | ok m => rw [hfold] at h; simp at h
        | error e => rw [hfold] at h; simp at h
    · intro hf
      simp [inputs_to_dict, hf]

/-- C10 witness: a two-element list of non-strings yields the empty mapping,
and the absent argument yields `None`; via `inputs_nonstring_spec`. -/
theorem inputs_nonstring_spec_witness :
    inputs_to_dict sampleInputsEnv (.listed [.nonstr true, .nonstr false])
        "inputs" = .ok (some []) ∧
    inputs_to_dict sampleInputsEnv .absent "inputs" = .ok none := by
  constructor
  · exact (inputs_nonstring_spec sampleInputsEnv "inputs").1
      [.nonstr true, .nonstr false] (by simp) (by decide)
  · exact ((inputs_nonstring_spec sampleInputsEnv "inputs").2 .absent).mpr rfl
